import Mathlib

/-!
Shallow embedding of the AgriAI backend orchestration core
(src/app.py, src/services/text_translation.py,
src/services/speech_translation.py, src/services/analysis.py).

Remote provider calls are modelled by explicit outcome parameters
(`RemoteOutcome`, environment records): each pipeline run is a pure
function of the request data and of what each awaited remote operation
would have produced (including whether a timeout wrapper fired).
Python dicts coming from the provider are modelled as structures of
`Option` fields (a `none` field is a missing key); `dict.get(k, d)`
becomes `Option.getD`.
-/

namespace AgriAI

/-! ### Language Registry (text_translation.py lines 36-54, speech_translation.py lines 44-60) -/

/-- Embeds `LANGUAGE_MAP` of src/services/text_translation.py: frontend language
names to Lelapa.ai translation codes. -/
def LANGUAGE_MAP : List (String × String) :=
  [("English", "eng_Latn"),
   ("isiZulu", "zul_Latn"),
   ("isiXhosa", "xho_Latn"),
   ("Kiswahili", "swh_Latn"),
   ("Afrikaans", "afr_Latn"),
   ("Southern Sotho", "sot_Latn"),
   ("Northern Sotho", "nso_Latn"),
   ("Swati", "ssw_Latn"),
   ("Tsonga", "tso_Latn"),
   ("Tswana", "tsn_Latn"),
   ("Nigerian Pidgin", "eng_Latn"),
   ("Portuguese", "eng_Latn")]

/-- Embeds `get_language_code` (text_translation.py lines 52-54):
`LANGUAGE_MAP.get(language, "eng_Latn")`. -/
def get_language_code (language : String) : String :=
  (LANGUAGE_MAP.lookup language).getD "eng_Latn"

/-- Embeds `STT_LANGUAGE_MAP` of src/services/speech_translation.py. -/
def STT_LANGUAGE_MAP : List (String × String) :=
  [("English", "eng"),
   ("isiZulu", "zul"),
   ("isiXhosa", "eng"),
   ("Kiswahili", "eng"),
   ("Afrikaans", "afr"),
   ("Southern Sotho", "sot"),
   ("Nigerian Pidgin", "eng"),
   ("Portuguese", "eng")]

/-- Embeds `get_stt_language_code` (speech_translation.py lines 58-60):
`STT_LANGUAGE_MAP.get(language, "eng")`. -/
def get_stt_language_code (language : String) : String :=
  (STT_LANGUAGE_MAP.lookup language).getD "eng"

/-! ### Provider Gateway: translate (text_translation.py lines 57-136) -/

/-- One element of the `"translation"` list in the provider response;
`translated_text = none` models a missing key. -/
structure TransItem where
  translated_text : Option String
deriving Repr, DecidableEq

/-- Provider response dict for `client.translate`; `translation = none`
models `"translation" not in data`. -/
structure TransData where
  translation : Option (List TransItem)
deriving Repr, DecidableEq

/-- Outcome of one blocking remote SDK call run in the executor:
the call either raised (`failure`) or returned data (`response`). -/
inductive RemoteOutcome (α : Type) where
  | failure
  | response (d : α)
deriving Repr, DecidableEq

/-- Embeds `TranslationError` (text_translation.py lines 12-17). -/
structure TranslationError where
  message : String
  status_code : Nat
deriving Repr, DecidableEq

/-- Result of one `translate_text` invocation together with how many
remote SDK calls it performed. -/
structure TranslateResult where
  result : Except TranslationError String
  remoteCalls : Nat
deriving Repr

/-- Embeds `translate_text` (text_translation.py lines 57-136).
`tokenConfigured` models `LELAPA_TOKEN` being set (the module raises
while being imported when the SDK is missing, so `SDK_AVAILABLE` is true
whenever the function runs).  The final `except Exception` clause returns the
original text on any remote error; the empty-translation and
missing-key branches fall back to the original text as well. -/
def translate_text (tokenConfigured : Bool) (text source_lang target_lang : String)
    (remote : RemoteOutcome TransData) : TranslateResult :=
  if !tokenConfigured then
    { result := .error ⟨"Lelapa.ai API token not configured", 500⟩, remoteCalls := 0 }
  else if source_lang = target_lang then
    { result := .ok text, remoteCalls := 0 }
  else
    match remote with
    | .failure => { result := .ok text, remoteCalls := 1 }
    | .response data =>
      match data.translation with
      | some items =>
        if items.length > 0 then
          let translated := ((items.headD ⟨none⟩).translated_text).getD ""
          if translated ≠ "" then
            { result := .ok translated, remoteCalls := 1 }
          else
            { result := .ok text, remoteCalls := 1 }
        else
          { result := .ok text, remoteCalls := 1 }
      | none => { result := .ok text, remoteCalls := 1 }

/-! ### Analysis service (analysis.py) -/

/-- Majority vote over per-sentence sentiment labels
(analysis.py lines 110-118): count `"positive"`, `"negative"`,
`"neutral"` occurrences; `"positive"` when the positive count strictly
exceeds both others, `"negative"` when the negative count strictly
exceeds both others, `"neutral"` otherwise. -/
def overall_sentiment_of_labels (labels : List String) : String :=
  let positive_count := labels.count "positive"
  let negative_count := labels.count "negative"
  let neutral_count := labels.count "neutral"
  if positive_count > negative_count ∧ positive_count > neutral_count then
    "positive"
  else if negative_count > positive_count ∧ negative_count > neutral_count then
    "negative"
  else
    "neutral"

/-- Sentiment result dict as consumed by the formatter;
`overall_sentiment = none` models a dict without that key. -/
structure SentimentDict where
  overall_sentiment : Option String
deriving Repr, DecidableEq

/-- One entity dict from the NER result: `entity` is the type,
`word` the extracted text; `none` models a missing key. -/
structure EntityDict where
  entity : Option String
  word : Option String
deriving Repr, DecidableEq

/-- Entities result dict as consumed by the formatter;
`entities = none` models a dict without the `"entities"` key. -/
structure EntitiesDict where
  entities : Option (List EntityDict)
deriving Repr, DecidableEq

/-! ### Result Formatter (app.py lines 97-119) -/

/-- Embeds `REPLACEMENT_SENTENCE` (app.py line 29). -/
def REPLACEMENT_SENTENCE : String :=
  "The analysis service is not responding. Please try again later."

/-- Body of the per-entity loop (app.py lines 109-112):
`entity.get("entity", "unknown")`, `entity.get("word", "")`, and the
entry is appended only when the word is non-empty. -/
def renderEntity (e : EntityDict) : Option String :=
  let entity_type := e.entity.getD "unknown"
  let entity_word := e.word.getD ""
  if entity_word ≠ "" then
    some (entity_word ++ " (" ++ entity_type ++ ")")
  else
    none

/-- The `entity_list` built by app.py lines 107-112: iterate over
`entities[:10]` and keep the rendered entries with non-empty words. -/
def entityStrings (es : List EntityDict) : List String :=
  (es.take 10).filterMap renderEntity

/-- Contribution of app.py lines 101-103 to `parts`: the guard is
`sentiment_result and "overall_sentiment" in sentiment_result`; since a
dict containing the tested key is non-empty and hence truthy, this is
equivalent to the presence tests modelled here. -/
def sentimentParts : Option SentimentDict → List String
  | none => []
  | some s =>
    match s.overall_sentiment with
    | none => []
    | some label => ["Sentiment: " ++ label]

/-- Contribution of app.py lines 105-114 to `parts`: the guard is
`entities_result and "entities" in entities_result and len(...) > 0`
(truthiness again collapses to key presence), then the `entity_list`
loop and the `if entity_list:` check. -/
def entityParts : Option EntitiesDict → List String
  | none => []
  | some er =>
    match er.entities with
    | none => []
    | some es =>
      if es.length > 0 then
        if (entityStrings es).length > 0 then
          ["Entities found: " ++ String.intercalate ", " (entityStrings es)]
        else []
      else []

/-- Embeds `format_analysis_results` (app.py lines 97-119). -/
def format_analysis_results (sentiment_result : Option SentimentDict)
    (entities_result : Option EntitiesDict) : String :=
  let parts := sentimentParts sentiment_result ++ entityParts entities_result
  if parts.isEmpty then
    "Analysis completed. No significant patterns detected."
  else
    String.intercalate ". " parts ++ "."

/-! ### Provider Gateway: transcribe (speech_translation.py lines 63-163) -/

/-- Embeds `TranscriptionError` (speech_translation.py lines 20-25). -/
structure TranscriptionError where
  message : String
  status_code : Nat
deriving Repr, DecidableEq

/-- Provider response dict for `client.transcribe`; a `none` field
models a missing key. -/
structure SttData where
  id : Option String
  transcription_text : Option String
  language_code : Option String
  transcription_status : Option String
deriving Repr, DecidableEq

/-- The result dict built by `transcribe_audio`
(speech_translation.py lines 148-153); every key is always present. -/
structure TranscribeRecord where
  id : String
  transcription_text : String
  language_code : String
  status : String
deriving Repr, DecidableEq

/-- Embeds `transcribe_audio` (speech_translation.py lines 63-163).
`fresh` models the `os.urandom(8).hex()` drawn for the fallback id.
A raised exception from the file handling or the SDK call is
`RemoteOutcome.failure`, converted to a 500 `TranscriptionError`;
an empty or missing `transcription_text` raises the distinguished
"No transcription text in response" error (lines 139-144). -/
def transcribe_audio (tokenConfigured : Bool) (language : String) (fresh : String)
    (remote : RemoteOutcome SttData) : Except TranscriptionError TranscribeRecord :=
  if !tokenConfigured then
    .error ⟨"Lelapa.ai API token not configured", 500⟩
  else if (STT_LANGUAGE_MAP.lookup language).isNone then
    .error ⟨"Unsupported language for transcription: " ++ language, 400⟩
  else
    let lang_code := (STT_LANGUAGE_MAP.lookup language).getD "eng"
    match remote with
    | .failure => .error ⟨"Transcription failed", 500⟩
    | .response data =>
      let transcription_text := data.transcription_text.getD ""
      if transcription_text = "" then
        .error ⟨"No transcription text in response", 500⟩
      else
        .ok { id := data.id.getD ("trans_" ++ fresh),
              transcription_text := transcription_text,
              language_code := data.language_code.getD lang_code,
              status := data.transcription_status.getD "COMPLETED" }

/-! ### Pipeline Orchestrator (app.py lines 144-379) -/

/-- Embeds `HTTPException` as raised by the endpoint handlers. -/
structure HTTPError where
  status_code : Nat
  detail : String
deriving Repr, DecidableEq

/-- Embeds `AnalysisResponse` (app.py lines 78-83). -/
structure AnalysisResponse where
  id : String
  content : String
  language : String
  sentiment : Option SentimentDict
  entities : Option EntitiesDict
deriving Repr, DecidableEq

/-- Embeds `TranscriptionResponse` (app.py lines 88-94). -/
structure TranscriptionResponse where
  id : String
  transcription_text : String
  analysis : String
  language : String
  sentiment : Option SentimentDict
  entities : Option EntitiesDict
deriving Repr, DecidableEq

/-- Remote pipeline stages that perform provider calls after
validation/transcription (used to record which stages a run reached). -/
inductive Step where
  | translateIn
  | analyze
  | translateBack
deriving Repr, DecidableEq

/-- Environment of one text-analysis request: the outcome each awaited
remote operation would deliver, whether each `asyncio.wait_for` wrapper
timed out, and the process randomness for the response id.
`sentimentOutcome`/`entitiesOutcome` are what `run_sentiment` /
`run_entities` return when the shared wait completes: both absorb any
exception of their gateway call into `None` (app.py lines 201-213), so
`Option` covers every non-timeout behaviour. -/
structure TextEnv where
  tokenConfigured : Bool
  translateInTimeout : Bool
  translateInRemote : RemoteOutcome TransData
  analyzeTimedOut : Bool
  sentimentOutcome : Option SentimentDict
  entitiesOutcome : Option EntitiesDict
  translateBackTimeout : Bool
  translateBackRemote : RemoteOutcome TransData
  fresh : String

/-- Observable outcome of one text-analysis run: the HTTP result, the
`analysis_text` value computed in Step 3 (when the run got that far),
and the remote stages the run reached. -/
structure TextRun where
  result : Except HTTPError AnalysisResponse
  analysisText : Option String
  steps : List Step

/-- Embeds `analyze_text` (app.py lines 144-264).  Validation order follows
lines 153-166; Step 1 wraps `translate_text` in a 3 s `wait_for` whose
timeout or error falls back to the original content (lines 177-193);
Step 2's shared `wait_for` around `gather(run_sentiment(), run_entities())`
leaves both results `None` when it times out, since the tuple assignment
never executes (lines 197-222); Step 3 substitutes `REPLACEMENT_SENTENCE`
on timeout (lines 225-228); Step 4 wraps the back-translation the same
way as Step 1 (lines 232-248); the response id is
`"analysis_" + os.urandom(8).hex()` (line 251). -/
def analyze_text_core (env : TextEnv) (content language : String) : TextRun :=
  let source_lang_code := get_language_code language
  let english_text :=
    if source_lang_code ≠ "eng_Latn" then
      if env.translateInTimeout then content
      else
        match (translate_text env.tokenConfigured content source_lang_code "eng_Latn"
            env.translateInRemote).result with
        | .ok s => s
        | .error _ => content
    else content
  let _ := english_text
  let sentiment_result := if env.analyzeTimedOut then none else env.sentimentOutcome
  let entities_result := if env.analyzeTimedOut then none else env.entitiesOutcome
  let analysis_text :=
    if env.analyzeTimedOut then REPLACEMENT_SENTENCE
    else format_analysis_results sentiment_result entities_result
  let response_text :=
    if language ≠ "English" then
      if env.translateBackTimeout then analysis_text
      else
        match (translate_text env.tokenConfigured analysis_text "eng_Latn" source_lang_code
            env.translateBackRemote).result with
        | .ok s => s
        | .error _ => analysis_text
    else analysis_text
  { result := .ok
      { id := "analysis_" ++ env.fresh,
        content := response_text,
        language := language,
        sentiment := sentiment_result,
        entities := entities_result },
    analysisText := some analysis_text,
    steps := (if source_lang_code ≠ "eng_Latn" then [Step.translateIn] else []) ++
      [Step.analyze] ++
      (if language ≠ "English" then [Step.translateBack] else []) }

/-- Python's `str.strip()`: drop leading and trailing whitespace,
modelled structurally on the string's character list. -/
def pyStrip (s : String) : String :=
  String.mk (((s.data.dropWhile Char.isWhitespace).reverse.dropWhile
    Char.isWhitespace).reverse)

/-- The `analyze_text` handler: validation (app.py lines 153-166)
followed by the pipeline body. -/
def analyze_text (env : TextEnv) (content language : String) : TextRun :=
  if pyStrip content = "" then
    { result := .error ⟨400, "Content cannot be empty"⟩, analysisText := none, steps := [] }
  else if (LANGUAGE_MAP.lookup language).isNone then
    { result := .error ⟨400, "Unsupported language: " ++ language⟩,
      analysisText := none, steps := [] }
  else if !env.tokenConfigured then
    { result := .error ⟨503, "Lelapa.ai API token not configured"⟩,
      analysisText := none, steps := [] }
  else
    analyze_text_core env content language

/-- Environment of one audio-analysis request, analogous to `TextEnv`.
`freshTrans` is the randomness drawn inside `transcribe_audio` for its
fallback id; `freshAudio` the randomness of app.py line 363's fallback. -/
structure AudioEnv where
  tokenConfigured : Bool
  sttRemote : RemoteOutcome SttData
  analyzeTimedOut : Bool
  sentimentOutcome : Option SentimentDict
  entitiesOutcome : Option EntitiesDict
  translateBackTimeout : Bool
  translateBackRemote : RemoteOutcome TransData
  freshTrans : String
  freshAudio : String

/-- Observable outcome of one audio-analysis run. -/
structure AudioRun where
  result : Except HTTPError TranscriptionResponse
  analysisText : Option String
  steps : List Step

/-- Embeds `analyze_audio` (app.py lines 266-379).  Validation follows lines
278-288; Step 1 calls `transcribe_audio(file, "English")` (line 297) and a
`TranscriptionError` is surfaced as an `HTTPException` with the error's
status code (lines 373-374); the defensive empty-transcript check at
lines 300-301 raises a 500; Steps 2-4 mirror the text flow (lines
305-360); the response id is `transcription_result.get("id", ...)`
(line 363), and since `transcribe_audio` always puts an `"id"` key in
its result dict, the `"audio_"` fallback there is dead. -/
def analyze_audio_core (env : AudioEnv) (language : String)
    (transcription_result : TranscribeRecord) : AudioRun :=
  let english_text := transcription_result.transcription_text
  if english_text = "" then
    { result := .error ⟨500, "Transcription returned empty text"⟩,
      analysisText := none, steps := [] }
  else
    let sentiment_result := if env.analyzeTimedOut then none else env.sentimentOutcome
    let entities_result := if env.analyzeTimedOut then none else env.entitiesOutcome
    let analysis_text :=
      if env.analyzeTimedOut then REPLACEMENT_SENTENCE
      else format_analysis_results sentiment_result entities_result
    let target_lang_code := get_language_code language
    let response_text :=
      if language ≠ "English" then
        if env.translateBackTimeout then analysis_text
        else
          match (translate_text env.tokenConfigured analysis_text "eng_Latn" target_lang_code
              env.translateBackRemote).result with
          | .ok s => s
          | .error _ => analysis_text
      else analysis_text
    { result := .ok
        { id := transcription_result.id,
          transcription_text := english_text,
          analysis := response_text,
          language := language,
          sentiment := sentiment_result,
          entities := entities_result },
      analysisText := some analysis_text,
      steps := [Step.analyze] ++
        (if language ≠ "English" then [Step.translateBack] else []) }

/-- The `analyze_audio` handler: validation (app.py lines 278-288), the
transcription step with its error propagation, then the pipeline body. -/
def analyze_audio (env : AudioEnv) (language : String) : AudioRun :=
  if (STT_LANGUAGE_MAP.lookup language).isNone then
    { result := .error ⟨400, "Unsupported language: " ++ language⟩,
      analysisText := none, steps := [] }
  else if !env.tokenConfigured then
    { result := .error ⟨503, "Lelapa.ai API token not configured"⟩,
      analysisText := none, steps := [] }
  else
    match transcribe_audio env.tokenConfigured "English" env.freshTrans env.sttRemote with
    | .error e =>
      { result := .error ⟨e.status_code, e.message⟩, analysisText := none, steps := [] }
    | .ok transcription_result =>
      analyze_audio_core env language transcription_result

/-! ### Helper lemmas -/

lemma intercalate_pair (s a b : String) : String.intercalate s [a, b] = a ++ s ++ b := rfl

lemma intercalate_single (s a : String) : String.intercalate s [a] = a := rfl

lemma lookup_mem_values :
    ∀ (l : List (String × String)) (k c : String),
      l.lookup k = some c → c ∈ l.map Prod.snd := by
  intro l
  induction l with
  | nil => intro k c h; simp [List.lookup] at h
  | cons p t ih =>
    intro k c h
    obtain ⟨k', v⟩ := p
    rw [List.lookup] at h
    cases hk : (k == k') with
    | true =>
      rw [hk] at h
      simp only at h
      injection h with h
      subst h
      exact List.mem_cons_self _ _
    | false =>
      rw [hk] at h
      simp only at h
      exact List.mem_cons_of_mem _ (ih k c h)

lemma entityStrings_take (es : List EntityDict) :
    entityStrings (es.take 10) = entityStrings es := by
  unfold entityStrings
  rw [List.take_take]
  norm_num

lemma sentimentParts_some (label : String) :
    sentimentParts (some ⟨some label⟩) = ["Sentiment: " ++ label] := rfl

lemma entityParts_some (es : List EntityDict) :
    entityParts (some ⟨some es⟩) =
      if es.length > 0 then
        if (entityStrings es).length > 0 then
          ["Entities found: " ++ String.intercalate ", " (entityStrings es)]
        else []
      else [] := rfl

lemma transcribe_english_failure (fresh : String) :
    transcribe_audio true "English" fresh RemoteOutcome.failure =
      .error ⟨"Transcription failed", 500⟩ := rfl

lemma transcribe_english_response (d : SttData) (fresh : String) :
    transcribe_audio true "English" fresh (RemoteOutcome.response d) =
      if d.transcription_text.getD "" = "" then
        .error ⟨"No transcription text in response", 500⟩
      else
        .ok { id := d.id.getD ("trans_" ++ fresh),
              transcription_text := d.transcription_text.getD "",
              language_code := d.language_code.getD "eng",
              status := d.transcription_status.getD "COMPLETED" } := rfl

lemma analyze_text_ok_core (env : TextEnv) (content language : String) (r : AnalysisResponse)
    (h : (analyze_text env content language).result = Except.ok r) :
    analyze_text env content language = analyze_text_core env content language := by
  unfold analyze_text at h ⊢
  split_ifs at h ⊢
  rfl

lemma analyze_text_core_result (env : TextEnv) (content language : String) :
    ∃ response_text, (analyze_text_core env content language).result = Except.ok
      { id := "analysis_" ++ env.fresh,
        content := response_text,
        language := language,
        sentiment := if env.analyzeTimedOut then none else env.sentimentOutcome,
        entities := if env.analyzeTimedOut then none else env.entitiesOutcome } :=
  ⟨_, rfl⟩

lemma analyze_text_core_analysisText (env : TextEnv) (content language : String) :
    (analyze_text_core env content language).analysisText =
      some (if env.analyzeTimedOut then REPLACEMENT_SENTENCE
        else format_analysis_results
          (if env.analyzeTimedOut then none else env.sentimentOutcome)
          (if env.analyzeTimedOut then none else env.entitiesOutcome)) := rfl

lemma analyze_audio_ok_core (env : AudioEnv) (language : String) (r : TranscriptionResponse)
    (h : (analyze_audio env language).result = Except.ok r) :
    ∃ tr, transcribe_audio env.tokenConfigured "English" env.freshTrans env.sttRemote =
        .ok tr ∧
      analyze_audio env language = analyze_audio_core env language tr := by
  unfold analyze_audio at h ⊢
  split_ifs at h ⊢
  cases htr : transcribe_audio env.tokenConfigured "English" env.freshTrans env.sttRemote with
    | error e =>
      rw [htr] at h
      exact absurd h (by simp)
    | ok tr =>
      exact ⟨tr, rfl, rfl⟩

lemma analyze_audio_core_ok (env : AudioEnv) (language : String) (tr : TranscribeRecord)
    (hne : ¬ tr.transcription_text = "") :
    (∃ rt, (analyze_audio_core env language tr).result = Except.ok
      { id := tr.id,
        transcription_text := tr.transcription_text,
        analysis := rt,
        language := language,
        sentiment := if env.analyzeTimedOut then none else env.sentimentOutcome,
        entities := if env.analyzeTimedOut then none else env.entitiesOutcome }) ∧
    (analyze_audio_core env language tr).analysisText =
      some (if env.analyzeTimedOut then REPLACEMENT_SENTENCE
        else format_analysis_results
          (if env.analyzeTimedOut then none else env.sentimentOutcome)
          (if env.analyzeTimedOut then none else env.entitiesOutcome)) := by
  simp only [analyze_audio_core]
  rw [if_neg hne]
  exact ⟨⟨_, rfl⟩, rfl⟩

/-! ### Claims -/

/-- C3: the derived `overallSentiment` is `"positive"` exactly when the
positive count strictly exceeds both the negative and the neutral count,
`"negative"` exactly when the negative count strictly exceeds both the
positive and the neutral count, and `"neutral"` otherwise (all ties
resolve to neutral); counts `{positive:2, negative:2, neutral:1}` yield
`"neutral"` and `{positive:3, negative:1, neutral:0}` yield
`"positive"`. -/
theorem overall_sentiment_majority_vote (labels : List String) :
    (overall_sentiment_of_labels labels = "positive" ↔
      labels.count "positive" > labels.count "negative" ∧
      labels.count "positive" > labels.count "neutral") ∧
    (overall_sentiment_of_labels labels = "negative" ↔
      labels.count "negative" > labels.count "positive" ∧
      labels.count "negative" > labels.count "neutral") ∧
    (overall_sentiment_of_labels labels = "neutral" ↔
      (¬(labels.count "positive" > labels.count "negative" ∧
         labels.count "positive" > labels.count "neutral") ∧
       ¬(labels.count "negative" > labels.count "positive" ∧
         labels.count "negative" > labels.count "neutral"))) ∧
    overall_sentiment_of_labels
      ["positive", "positive", "negative", "negative", "neutral"] = "neutral" ∧
    overall_sentiment_of_labels
      ["positive", "positive", "positive", "negative"] = "positive" := by
  refine ⟨?_, ?_, ?_, by decide, by decide⟩ <;>
    · simp only [overall_sentiment_of_labels]
      split_ifs with h1 h2 <;> simp_all <;> omega

/-- C4: the result formatter is a pure total function applying its rules
in order (sentiment part first, then entities part), joining the emitted
parts with `". "` and terminating with a period; on two absent inputs it
returns exactly `"Analysis completed. No significant patterns detected."`,
and on a lone sentiment with label `"positive"` it returns exactly
`"Sentiment: positive."`. -/
theorem formatter_rules :
    format_analysis_results none none =
      "Analysis completed. No significant patterns detected." ∧
    format_analysis_results (some ⟨some "positive"⟩) none = "Sentiment: positive." ∧
    (∀ (label : String) (es : List EntityDict),
      entityStrings es ≠ [] →
      format_analysis_results (some ⟨some label⟩) (some ⟨some es⟩) =
        "Sentiment: " ++ label ++ ". " ++
          ("Entities found: " ++ String.intercalate ", " (entityStrings es)) ++ ".") := by
  refine ⟨by decide, by decide, ?_⟩
  intro label es hne
  have hes : 0 < es.length := by
    rcases es with _ | ⟨e, t⟩
    · simp [entityStrings] at hne
    · simp
  have hlist : 0 < (entityStrings es).length := List.length_pos.mpr hne
  unfold format_analysis_results
  rw [sentimentParts_some, entityParts_some, if_pos hes, if_pos hlist]
  simp [intercalate_pair]

/-- C5: the formatter renders at most the first 10 entities, each as
`"{text} ({type})"` joined with `", "` after `"Entities found: "`,
regardless of how many entities are supplied; a single entity
`{type:"location", text:"Lagos"}` with absent sentiment yields exactly
`"Entities found: Lagos (location)."`. -/
theorem formatter_truncates_to_ten :
    (∀ (s : Option SentimentDict) (es : List EntityDict),
      format_analysis_results s (some ⟨some es⟩) =
        format_analysis_results s (some ⟨some (es.take 10)⟩)) ∧
    (∀ es : List EntityDict, (entityStrings es).length ≤ 10) ∧
    format_analysis_results none (some ⟨some [⟨some "location", some "Lagos"⟩]⟩) =
      "Entities found: Lagos (location)." := by
  refine ⟨?_, ?_, by decide⟩
  · intro s es
    have hparts : entityParts (some ⟨some es⟩) = entityParts (some ⟨some (es.take 10)⟩) := by
      rw [entityParts_some, entityParts_some, entityStrings_take]
      by_cases h : 0 < es.length
      · have h' : 0 < (es.take 10).length := by
          rw [List.length_take]; omega
        rw [if_pos h, if_pos h']
      · have h0 : es = [] := by
          rcases es with _ | _
          · rfl
          · simp at h
        subst h0
        rfl
    unfold format_analysis_results
    rw [hparts]
  · intro es
    calc (entityStrings es).length
        ≤ (es.take 10).length := List.length_filterMap_le _ _
      _ ≤ 10 := List.length_take_le _ _

/-- C6: for every text and every pair of language codes with
`sourceCode = targetCode`, the gateway translate operation returns the
input text unchanged and performs no remote call (stated for a
configured credential, since an unconfigured token is rejected before
the code comparison). -/
theorem translate_same_code_identity (text src tgt : String)
    (remote : RemoteOutcome TransData) (h : src = tgt) :
    (translate_text true text src tgt remote).result = .ok text ∧
    (translate_text true text src tgt remote).remoteCalls = 0 := by
  subst h
  unfold translate_text
  simp

/-- Witness for C6 at a concrete input. -/
theorem translate_same_code_identity_witness :
    (translate_text true "hola" "eng_Latn" "eng_Latn" RemoteOutcome.failure).result =
      .ok "hola" ∧
    (translate_text true "hola" "eng_Latn" "eng_Latn" RemoteOutcome.failure).remoteCalls = 0 :=
  translate_same_code_identity "hola" "eng_Latn" "eng_Latn" RemoteOutcome.failure rfl

/-- C7: `get_language_code` and `get_stt_language_code` are total: they
return the registered code for registered names and default to the
English code (`"eng_Latn"` / `"eng"`) for every other name; every
returned code belongs to the closed code set of its map. -/
theorem language_codes_total (name : String) :
    (∀ c, LANGUAGE_MAP.lookup name = some c → get_language_code name = c) ∧
    (LANGUAGE_MAP.lookup name = none → get_language_code name = "eng_Latn") ∧
    get_language_code name ∈ LANGUAGE_MAP.map Prod.snd ∧
    (∀ c, STT_LANGUAGE_MAP.lookup name = some c → get_stt_language_code name = c) ∧
    (STT_LANGUAGE_MAP.lookup name = none → get_stt_language_code name = "eng") ∧
    get_stt_language_code name ∈ STT_LANGUAGE_MAP.map Prod.snd := by
  refine ⟨?_, ?_, ?_, ?_, ?_, ?_⟩
  · intro c h; unfold get_language_code; rw [h]; rfl
  · intro h; unfold get_language_code; rw [h]; rfl
  · unfold get_language_code
    cases h : LANGUAGE_MAP.lookup name with
    | some c => exact lookup_mem_values _ _ _ h
    | none => decide
  · intro c h; unfold get_stt_language_code; rw [h]; rfl
  · intro h; unfold get_stt_language_code; rw [h]; rfl
  · unfold get_stt_language_code
    cases h : STT_LANGUAGE_MAP.lookup name with
    | some c => exact lookup_mem_values _ _ _ h
    | none => decide

/-- Witness for C7 at concrete names: a registered translation name, a
speech name aliased to English, and an unregistered name. -/
theorem language_codes_total_witness :
    get_language_code "isiZulu" = "zul_Latn" ∧
    get_stt_language_code "Kiswahili" = "eng" ∧
    get_language_code "Klingon" = "eng_Latn" :=
  ⟨(language_codes_total "isiZulu").1 "zul_Latn" (by decide),
   (language_codes_total "Kiswahili").2.2.2.1 "eng" (by decide),
   (language_codes_total "Klingon").2.1 (by decide)⟩

/-- Witness for C4 at a concrete input. -/
theorem formatter_rules_witness :
    format_analysis_results (some ⟨some "negative"⟩)
        (some ⟨some [⟨some "location", some "Lagos"⟩]⟩) =
      "Sentiment: negative. Entities found: Lagos (location)." := by
  have h := formatter_rules.2.2 "negative"
    [(⟨some "location", some "Lagos"⟩ : EntityDict)] (by decide)
  rw [h]
  decide

/-- C2 counterexample: with a configured token and distinct codes, a remote
failure inside `translate_text` does not propagate: the gateway itself
returns the original input text as a successful result (`remoteCalls = 1`
shows the remote call was attempted). -/
theorem translate_failure_propagates_cex :
    (translate_text true "hello" "eng_Latn" "zul_Latn" RemoteOutcome.failure).result =
      Except.ok "hello" ∧
    (translate_text true "hello" "eng_Latn" "zul_Latn" RemoteOutcome.failure).remoteCalls =
      1 :=
  ⟨rfl, rfl⟩

/-- C2 amended: for every remote failure inside the gateway's translate
operation (configured token, distinct codes so a remote call happens),
the gateway itself catches the failure and returns the original input
text as a successful result; the failure is not observable by the
caller. -/
theorem translate_failure_swallowed (text src tgt : String) (h : src ≠ tgt) :
    (translate_text true text src tgt RemoteOutcome.failure).result = .ok text ∧
    (translate_text true text src tgt RemoteOutcome.failure).remoteCalls = 1 := by
  unfold translate_text
  simp [h]

/-- Witness for the amended C2. -/
theorem translate_failure_swallowed_witness :
    (translate_text true "hi" "zul_Latn" "eng_Latn" RemoteOutcome.failure).result =
      .ok "hi" ∧
    (translate_text true "hi" "zul_Latn" "eng_Latn" RemoteOutcome.failure).remoteCalls =
      1 :=
  translate_failure_swallowed "hi" "zul_Latn" "eng_Latn" (by decide)

/-- C10: the formatter skips any entity whose word is missing or empty,
substitutes `"unknown"` for a missing type, and truncates to the first
10 entities before this filtering: if every one of the first 10 entities
lacks a word, the "Entities found" part is omitted entirely (the result
is as if entities were absent), even when later entities have text. -/
theorem entity_filtering_after_truncation :
    (∀ e : EntityDict, e.word.getD "" = "" → renderEntity e = none) ∧
    (∀ (e : EntityDict) (w : String), e.word = some w → w ≠ "" → e.entity = none →
      renderEntity e = some (w ++ " (unknown)")) ∧
    (∀ (s : Option SentimentDict) (es : List EntityDict),
      (∀ e ∈ es.take 10, e.word.getD "" = "") →
      format_analysis_results s (some ⟨some es⟩) = format_analysis_results s none) := by
  refine ⟨?_, ?_, ?_⟩
  · intro e h
    unfold renderEntity
    simp [h]
  · intro e w hw hne hent
    unfold renderEntity
    rw [hw, hent]
    simp [hne]
    rw [String.append_assoc, String.append_assoc]
    congr 1
  · intro s es h
    have h0 : entityStrings es = [] := by
      unfold entityStrings
      rw [List.filterMap_eq_nil_iff]
      intro e he
      unfold renderEntity
      simp [h e he]
    have hparts : entityParts (some ⟨some es⟩) = [] := by
      rw [entityParts_some, h0]
      simp
    unfold format_analysis_results
    rw [hparts]
    rfl

/-- Witness for C10: ten word-less entities followed by an entity with
text produce no "Entities found" part at all. -/
theorem entity_filtering_after_truncation_witness :
    format_analysis_results none
        (some ⟨some (List.replicate 10 ⟨some "location", none⟩ ++
          [⟨some "location", some "Lagos"⟩])⟩) =
      "Analysis completed. No significant patterns detected." := by
  have h := entity_filtering_after_truncation.2.2 none
    (List.replicate 10 (⟨some "location", none⟩ : EntityDict) ++
      [⟨some "location", some "Lagos"⟩]) (by decide)
  rw [h]
  decide

/-- C1: if the shared Analyze timeout elapses, the analysis text equals
exactly `REPLACEMENT_SENTENCE` and both the sentiment and entities
fields of the response are absent — in both the text and the audio
flow, regardless of which sub-analysis outcomes had been produced
(the environment carries them, the response discards them). -/
theorem analyze_timeout_degraded (env : TextEnv) (aenv : AudioEnv)
    (content language alang : String)
    (ht : env.analyzeTimedOut = true) (ha : aenv.analyzeTimedOut = true) :
    (∀ r, (analyze_text env content language).result = Except.ok r →
      (analyze_text env content language).analysisText = some REPLACEMENT_SENTENCE ∧
      r.sentiment = none ∧ r.entities = none) ∧
    (∀ r, (analyze_audio aenv alang).result = Except.ok r →
      (analyze_audio aenv alang).analysisText = some REPLACEMENT_SENTENCE ∧
      r.sentiment = none ∧ r.entities = none) := by
  constructor
  · intro r hr
    have hc := analyze_text_ok_core env content language r hr
    rw [hc] at hr ⊢
    obtain ⟨rt, hres⟩ := analyze_text_core_result env content language
    rw [hres] at hr
    injection hr with hr
    subst hr
    refine ⟨?_, ?_, ?_⟩
    · rw [analyze_text_core_analysisText, ht]
      simp
    · simp [ht]
    · simp [ht]
  · intro r hr
    obtain ⟨tr, htr, hc⟩ := analyze_audio_ok_core aenv alang r hr
    rw [hc] at hr ⊢
    by_cases hne : tr.transcription_text = ""
    · have : (analyze_audio_core aenv alang tr).result =
          Except.error ⟨500, "Transcription returned empty text"⟩ := by
        simp only [analyze_audio_core]
        rw [if_pos hne]
      rw [this] at hr
      exact absurd hr (by simp)
    · obtain ⟨⟨rt, hres⟩, htext⟩ := analyze_audio_core_ok aenv alang tr hne
      rw [hres] at hr
      injection hr with hr
      subst hr
      refine ⟨?_, ?_, ?_⟩
      · rw [htext, ha]
        simp
      · simp [ha]
      · simp [ha]

/-- Concrete text environment: analyze timed out although the sentiment
sub-analysis had completed. -/
def textEnvTimeout : TextEnv :=
  { tokenConfigured := true,
    translateInTimeout := false,
    translateInRemote := .failure,
    analyzeTimedOut := true,
    sentimentOutcome := some ⟨some "positive"⟩,
    entitiesOutcome := none,
    translateBackTimeout := true,
    translateBackRemote := .failure,
    fresh := "deadbeef" }

/-- Concrete audio environment: transcription succeeded, analyze timed
out although the sentiment sub-analysis had completed. -/
def audioEnvTimeout : AudioEnv :=
  { tokenConfigured := true,
    sttRemote := .response ⟨some "id1", some "hello", none, none⟩,
    analyzeTimedOut := true,
    sentimentOutcome := some ⟨some "positive"⟩,
    entitiesOutcome := none,
    translateBackTimeout := true,
    translateBackRemote := .failure,
    freshTrans := "aa",
    freshAudio := "bb" }

/-- Witness for C1 at concrete runs of both flows. -/
theorem analyze_timeout_degraded_witness :
    (analyze_text textEnvTimeout "hello" "English").analysisText =
      some REPLACEMENT_SENTENCE ∧
    (analyze_audio audioEnvTimeout "English").analysisText =
      some REPLACEMENT_SENTENCE := by
  have h := analyze_timeout_degraded textEnvTimeout audioEnvTimeout
    "hello" "English" "English" rfl rfl
  exact ⟨(h.1 ⟨"analysis_deadbeef", REPLACEMENT_SENTENCE, "English", none, none⟩ rfl).1,
    (h.2 ⟨"id1", "hello", REPLACEMENT_SENTENCE, "English", none, none⟩ rfl).1⟩

/-- C8: when transcription fails or returns an empty transcript, the
audio request ends in an error response, and no analyze or translate
stage is reached. -/
theorem transcription_failure_fatal (env : AudioEnv) (language : String)
    (h : env.sttRemote = RemoteOutcome.failure ∨
      ∃ d, env.sttRemote = RemoteOutcome.response d ∧ d.transcription_text.getD "" = "") :
    (∃ e, (analyze_audio env language).result = Except.error e) ∧
    (analyze_audio env language).steps = [] := by
  unfold analyze_audio
  split_ifs with h1 h2
  · exact ⟨⟨_, rfl⟩, rfl⟩
  · exact ⟨⟨_, rfl⟩, rfl⟩
  · have htok : env.tokenConfigured = true := by
      cases hc : env.tokenConfigured
      · rw [hc] at h2; simp at h2
      · rfl
    rcases h with hf | ⟨d, hd, hempty⟩
    · rw [hf, htok, transcribe_english_failure]
      exact ⟨⟨_, rfl⟩, rfl⟩
    · rw [hd, htok, transcribe_english_response, if_pos hempty]
      exact ⟨⟨_, rfl⟩, rfl⟩

/-- Concrete audio environment whose transcription call fails. -/
def audioEnvSttFail : AudioEnv :=
  { tokenConfigured := true,
    sttRemote := .failure,
    analyzeTimedOut := false,
    sentimentOutcome := none,
    entitiesOutcome := none,
    translateBackTimeout := false,
    translateBackRemote := .failure,
    freshTrans := "cc",
    freshAudio := "dd" }

/-- Witness for C8 at a concrete run. -/
theorem transcription_failure_fatal_witness :
    (∃ e, (analyze_audio audioEnvSttFail "English").result = Except.error e) ∧
    (analyze_audio audioEnvSttFail "English").steps = [] :=
  transcription_failure_fatal audioEnvSttFail "English" (Or.inl rfl)

/-- Provider transcription response that carries its own id. -/
def sttDataWithId : SttData :=
  { id := some "prov123",
    transcription_text := some "hello",
    language_code := none,
    transcription_status := none }

/-- Concrete audio environment whose provider transcription response
carries the id `"prov123"`. -/
def audioEnvProvId : AudioEnv :=
  { tokenConfigured := true,
    sttRemote := .response sttDataWithId,
    analyzeTimedOut := false,
    sentimentOutcome := none,
    entitiesOutcome := none,
    translateBackTimeout := false,
    translateBackRemote := .failure,
    freshTrans := "fresh1",
    freshAudio := "randA" }

/-- Same environment with different request randomness. -/
def audioEnvProvId2 : AudioEnv :=
  { audioEnvProvId with freshTrans := "fresh2", freshAudio := "randB" }

/-- C9 counterexample: in the audio flow the response id is taken from
the provider's transcription response, not freshly generated — two runs
with different request randomness both return the provider id
`"prov123"`. -/
theorem response_id_fresh_cex :
    ((analyze_audio audioEnvProvId "English").result.toOption.map
      TranscriptionResponse.id) = some "prov123" ∧
    ((analyze_audio audioEnvProvId2 "English").result.toOption.map
      TranscriptionResponse.id) = some "prov123" :=
  ⟨rfl, rfl⟩

/-- C9 amended: the text-flow response id is freshly generated per
request (`"analysis_"` + new randomness); the audio-flow response id is
reused from the provider transcription response when the provider
supplies one, and only falls back to a freshly generated
`"trans_"`-prefixed id when the provider response has no id. -/
theorem response_id_provenance (env : TextEnv) (content language : String)
    (aenv : AudioEnv) (alang : String) :
    (∀ r, (analyze_text env content language).result = Except.ok r →
      r.id = "analysis_" ++ env.fresh) ∧
    (∀ r d, (analyze_audio aenv alang).result = Except.ok r →
      aenv.sttRemote = RemoteOutcome.response d →
      r.id = d.id.getD ("trans_" ++ aenv.freshTrans)) := by
  constructor
  · intro r hr
    have hc := analyze_text_ok_core env content language r hr
    rw [hc] at hr
    obtain ⟨rt, hres⟩ := analyze_text_core_result env content language
    rw [hres] at hr
    injection hr with hr
    subst hr
    rfl
  · intro r d hr hd
    obtain ⟨tr, htr, hc⟩ := analyze_audio_ok_core aenv alang r hr
    rw [hc] at hr
    have htok : aenv.tokenConfigured = true := by
      cases hctok : aenv.tokenConfigured
      · rw [hctok] at htr
        exact absurd htr (by simp [transcribe_audio])
      · rfl
    rw [htok, hd, transcribe_english_response] at htr
    by_cases hempty : d.transcription_text.getD "" = ""
    · rw [if_pos hempty] at htr
      exact absurd htr (by simp)
    · rw [if_neg hempty] at htr
      injection htr with htr
      have hne : ¬ tr.transcription_text = "" := by
        rw [← htr]
        exact hempty
      obtain ⟨⟨rt, hres⟩, _⟩ := analyze_audio_core_ok aenv alang tr hne
      rw [hres] at hr
      injection hr with hr
      subst hr
      rw [← htr]

/-- Concrete text environment for the C9 witness. -/
def textEnvFresh : TextEnv :=
  { tokenConfigured := true,
    translateInTimeout := false,
    translateInRemote := .failure,
    analyzeTimedOut := false,
    sentimentOutcome := none,
    entitiesOutcome := none,
    translateBackTimeout := false,
    translateBackRemote := .failure,
    fresh := "cafe" }

/-- Witness for the amended C9 at concrete runs of both flows. -/
theorem response_id_provenance_witness :
    ({ id := "analysis_cafe",
       content := "Analysis completed. No significant patterns detected.",
       language := "English", sentiment := none,
       entities := none } : AnalysisResponse).id = "analysis_" ++ textEnvFresh.fresh ∧
    ({ id := "prov123", transcription_text := "hello",
       analysis := "Analysis completed. No significant patterns detected.",
       language := "English", sentiment := none,
       entities := none } : TranscriptionResponse).id =
      (sttDataWithId.id).getD ("trans_" ++ audioEnvProvId.freshTrans) := by
  have h := response_id_provenance textEnvFresh "hello" "English" audioEnvProvId "English"
  exact ⟨h.1 _ rfl, h.2 _ sttDataWithId rfl rfl⟩

end AgriAI
